import Mathlib

/-!
# Verification of the MLMGsPro shot-processing core

Shallow embedding of the shot-processing core of the MLMGsPro repository:

* `src/worker_screenshot_device_base.py` — the ghost-shot debounce filter
  (`__handle_good_shot`), the delayed-metrics correlator
  (`__process_delayed_metrics_update`, `__cache_pending_shot`,
  `__flush_pending_shot_if_timed_out`) and the `do_screenshot` dispatch.
* `src/worker_screenshot_device_launch_monitor.py` — the saturation-threshold
  state machine of the polling launch-monitor worker (`run`).
* `src/worker_device_launch_monitor_relay_server.py` — the grayscale/color
  debounce of the relay worker (`run`).

Timestamps of the base worker are modelled in microseconds (`Nat`), matching
Python `datetime` resolution; `timedelta.seconds` is the whole-second
component of the difference, i.e. `(delta / 10^6) % 86400` for a nonnegative
difference.  The launch-monitor clock (`time.time()`) and all saturation
values and thresholds are modelled as rationals.
-/

namespace MLMGsPro

/-- Modelled from the spec: `src/ball_data.py` (class `BallData` with the
`BallMetrics` key constants) is not part of the provided sources.  Per the
spec's data model a reading carries a `goodShot` flag, the
`hasDelayedUpdate` / `pendingDelayedMetrics` flags, the delayed club fields
(angle of attack, club path), further ball metrics (represented here by
`ball_speed` and `total_spin`), and the `contains_ball_data` /
`contains_club_data` / `club_data_only` tags set by the worker.  `oid`
models Python object identity, used by the `is not` comparison in
`do_screenshot`. -/
structure BallData where
  oid : Nat
  good_shot : Bool
  delayed_metrics_update : Bool
  delayed_metrics_pending : Bool
  contains_ball_data : Bool
  contains_club_data : Bool
  club_data_only : Bool
  angle_of_attack : ℚ
  club_path : ℚ
  ball_speed : ℚ
  total_spin : ℚ
  deriving DecidableEq

/-- The Qt signal emissions of `WorkerScreenshotBase` that the claims talk
about: `shot`, `bad_shot`, `same_shot`, `too_many_ghost_shots`. -/
inductive Emit where
  | shot (b : BallData)
  | bad_shot (b : BallData)
  | same_shot
  | too_many_ghost_shots
  deriving DecidableEq

/-- Mutable state of `WorkerScreenshotBase`: `shot_count`,
`time_of_last_shot` (microseconds), `pending_shot`, `pending_shot_started`. -/
structure WorkerState where
  shot_count : Nat
  time_of_last_shot : Nat
  pending_shot : Option BallData
  pending_shot_started : Option Nat
  deriving DecidableEq

/-- `WorkerScreenshotBase.__init__`: `shot_count = 0`,
`time_of_last_shot = datetime.now()` (the construction time), no pending
shot. -/
def initWorkerState (constructedAt : Nat) : WorkerState :=
  { shot_count := 0
    time_of_last_shot := constructedAt
    pending_shot := none
    pending_shot_started := none }

/-- Python `timedelta.seconds` of a nonnegative difference given in
microseconds: the whole-second component within the day. -/
def timedeltaSeconds (deltaMicros : Nat) : Nat :=
  (deltaMicros / 1000000) % 86400

/-- `self.delayed_metrics_timeout = timedelta(seconds=3)`, in microseconds. -/
def delayedMetricsTimeout : Nat := 3000000

/-- The flag mutation applied to an accepted good shot before it is emitted:
`contains_ball_data = True`, `contains_club_data = True`,
`club_data_only = False`. -/
def acceptedShot (b : BallData) : BallData :=
  { b with
    contains_ball_data := true
    contains_club_data := true
    club_data_only := false }

/-- `WorkerScreenshotBase.__handle_good_shot`.  Returns the updated worker
state, the emissions, and the (possibly flag-mutated) ball data object. -/
def handle_good_shot (s : WorkerState) (now : Nat) (b : BallData) :
    WorkerState × List Emit × BallData :=
  let last_shot_seconds := timedeltaSeconds (now - s.time_of_last_shot)
  let count := if last_shot_seconds ≤ 5 then s.shot_count + 1 else 0
  let s1 : WorkerState := { s with shot_count := count, time_of_last_shot := now }
  if 1 ≤ s1.shot_count then
    if 2 < s1.shot_count then
      ({ s1 with shot_count := 0 }, [Emit.same_shot, Emit.too_many_ghost_shots], b)
    else
      (s1, [Emit.same_shot], b)
  else
    (s1, [Emit.shot (acceptedShot b)], acceptedShot b)

/-- `WorkerScreenshotBase.__flush_pending_shot_if_timed_out`. -/
def flush_pending_shot_if_timed_out (s : WorkerState) (now : Nat) : WorkerState :=
  match s.pending_shot, s.pending_shot_started with
  | some _, some t0 =>
      if delayedMetricsTimeout ≤ now - t0 then
        { s with pending_shot := none, pending_shot_started := none }
      else s
  | _, _ => s

/-- The merged club-only copy built by
`WorkerScreenshotBase.__process_delayed_metrics_update`: the pending shot
`p` with the delayed fields (`ANGLE_OF_ATTACK`, `CLUB_PATH`) taken from the
update `b`, then tagged `contains_ball_data = False`,
`contains_club_data = True`, `club_data_only = True`, `good_shot = True`. -/
def clubOnlyUpdate (p b : BallData) : BallData :=
  { p with
    angle_of_attack := b.angle_of_attack
    club_path := b.club_path
    contains_ball_data := false
    contains_club_data := true
    club_data_only := true
    good_shot := true }

/-- `WorkerScreenshotBase.__process_delayed_metrics_update`: with no pending
shot the update is dropped; otherwise the delayed fields are merged, the
pending cache cleared, and the club-only copy emitted on `shot` (via
`__send_club_metrics_update`). -/
def process_delayed_metrics_update (s : WorkerState) (b : BallData) :
    WorkerState × List Emit :=
  match s.pending_shot with
  | none => (s, [])
  | some p =>
      ({ s with pending_shot := none, pending_shot_started := none },
        [Emit.shot (clubOnlyUpdate p b)])

/-- The outcome of `capture_screenshot` / `ocr_image` for one
`do_screenshot` call: whether the screenshot was new, whether the OCR saw a
new shot, and the decoded ball data. -/
structure ScreenshotResult where
  screenshot_new : Bool
  new_shot : Bool
  balldata : BallData
  deriving DecidableEq

/-- `WorkerScreenshotBase.do_screenshot`: flush a timed-out pending shot,
then dispatch on the screenshot outcome.  A good new reading with
`delayed_metrics_update` goes to the correlator; otherwise it goes through
the ghost filter, is cached as pending when `delayed_metrics_pending`, and
otherwise clears a distinct stale pending shot. -/
def do_screenshot (s : WorkerState) (now : Nat) (r : ScreenshotResult) :
    WorkerState × List Emit :=
  let s0 := flush_pending_shot_if_timed_out s now
  if r.screenshot_new then
    if r.new_shot then
      if r.balldata.good_shot then
        if r.balldata.delayed_metrics_update then
          process_delayed_metrics_update s0 r.balldata
        else
          let hg := handle_good_shot s0 now r.balldata
          let s1 := hg.1
          let emits := hg.2.1
          let b1 := hg.2.2
          if b1.delayed_metrics_pending then
            ({ s1 with pending_shot := some b1, pending_shot_started := some now },
              emits)
          else
            match s1.pending_shot with
            | some p =>
                if p.oid ≠ b1.oid then
                  ({ s1 with pending_shot := none, pending_shot_started := none },
                    emits)
                else (s1, emits)
            | none => (s1, emits)
      else (s0, [Emit.bad_shot r.balldata])
    else (s0, [Emit.same_shot])
  else (s0, [Emit.same_shot])

/-- A concrete good reading used by concrete-input theorems. -/
def sampleBall : BallData :=
  { oid := 1, good_shot := true, delayed_metrics_update := false,
    delayed_metrics_pending := false, contains_ball_data := false,
    contains_club_data := false, club_data_only := false,
    angle_of_attack := 0, club_path := 0, ball_speed := 140, total_spin := 2500 }

example :
    (handle_good_shot ⟨0, 0, none, none⟩ 5500000 sampleBall).2.1 =
      [Emit.same_shot] := by decide

def sampleBallAccepted : BallData :=
  { sampleBall with
    contains_ball_data := true
    contains_club_data := true
    club_data_only := false }

example :
    (handle_good_shot ⟨0, 0, none, none⟩ 6000000 sampleBall).2.1 =
      [Emit.shot sampleBallAccepted] := by decide

/-! ## Launch-monitor saturation state machine
(`WorkerScreenshotDeviceLaunchMonitor.run`) -/

/-- Classification of one saturation sample by the guards of the `run` loop:
`mean_saturation < shot_threshold` (with the nested `mean_saturation == 0`
skip), `shot_threshold <= mean_saturation <= obs_high_threshold`, else
above. -/
inductive SatClass where
  | ignoredZero
  | capture
  | clubWait
  | paused
  deriving DecidableEq

/-- The branch conditions of `WorkerScreenshotDeviceLaunchMonitor.run`, as a
pure classifier of one sample against the two dynamic thresholds. -/
def classify (sat shot_threshold obs_high_threshold : ℚ) : SatClass :=
  if sat < shot_threshold then
    if sat = 0 then SatClass.ignoredZero else SatClass.capture
  else if shot_threshold ≤ sat ∧ sat ≤ obs_high_threshold then SatClass.clubWait
  else SatClass.paused

/-- Values of the `last_state` string of the `run` loop
(`"shot"`, `"hotkey"`, `"pause"`). -/
inductive LMLast where
  | shot
  | hotkey
  | pause
  deriving DecidableEq

/-- Per-loop state of `WorkerScreenshotDeviceLaunchMonitor.run`:
`last_state`, `_club_scan_started_at` (a `time.time()` value in seconds) and
`_club_scan_timed_out`. -/
structure LMState where
  last_state : Option LMLast
  club_scan_started_at : Option ℚ
  club_scan_timed_out : Bool
  deriving DecidableEq

/-- Externally visible actions of one `run`-loop iteration: `resume()` /
`pause()`, a full `do_screenshot` capture attempt, the 2.5 s settle sleep,
the OBS hotkey trigger, and the outcome of the club-metrics
`do_screenshot(..., partial_only=True)` attempt — `clubCapture` if the call
is accepted, `clubCaptureError` if it raises (the surrounding
`try/except` logs the error and continues). -/
inductive LMAct where
  | resume
  | pause
  | capture
  | settleWait
  | hotkeyTrigger
  | clubCapture
  | clubCaptureError
  deriving DecidableEq

/-- `CLUB_SCAN_TIMEOUT = 6.0` seconds. -/
def clubScanTimeout : ℚ := 6

/-- The parameter names of `WorkerScreenshotBase.do_screenshot(self,
screenshot, settings, rois_setup)` — the method the launch monitor invokes
(it defines no override).  A keyword argument outside this list raises
`TypeError` in Python. -/
def doScreenshotParams : List String := ["screenshot", "settings", "rois_setup"]

/-- The club-metrics capture attempt of the CLUB_WAIT branch: the call
`self.do_screenshot(self.screenshot, self.device, False, partial_only=True)`
succeeds only if `do_screenshot` accepts the keyword `partial_only`;
otherwise it raises `TypeError`, caught by the `except` clause. -/
def clubCaptureAttempt : LMAct :=
  if "partial_only" ∈ doScreenshotParams then LMAct.clubCapture
  else LMAct.clubCaptureError

/-- The tail of the CLUB_WAIT branch: trigger the settle wait and the OBS
hotkey on the first tick (`last_state != "hotkey"`), then attempt the
club-metrics capture. -/
def lmHotkeyAndClubCapture (s : LMState) : LMState × List LMAct :=
  if s.last_state ≠ some LMLast.hotkey then
    ({ s with last_state := some LMLast.hotkey },
      [LMAct.settleWait, LMAct.hotkeyTrigger, clubCaptureAttempt])
  else (s, [clubCaptureAttempt])

/-- The CLUB_WAIT branch after the timed-out check: start the club-scan
timer if unset, otherwise pause (and set `_club_scan_timed_out`) when the
elapsed time exceeds `CLUB_SCAN_TIMEOUT`, else fall through to the hotkey
and club-capture part. -/
def lmClubWaitBody (s : LMState) (now : ℚ) : LMState × List LMAct :=
  match s.club_scan_started_at with
  | none => lmHotkeyAndClubCapture { s with club_scan_started_at := some now }
  | some t0 =>
      if clubScanTimeout < now - t0 then
        ({ s with club_scan_timed_out := true, last_state := some LMLast.pause },
          [LMAct.pause])
      else lmHotkeyAndClubCapture s

/-- One iteration of the `while` loop of
`WorkerScreenshotDeviceLaunchMonitor.run` after a saturation sample was
obtained, as a pure transition on `LMState` emitting the actions in
program order.  `now` is the `time.time()` clock. -/
def lmStep (s : LMState) (sat now shot_threshold obs_high_threshold : ℚ) :
    LMState × List LMAct :=
  match classify sat shot_threshold obs_high_threshold with
  | SatClass.ignoredZero =>
      ({ s with club_scan_started_at := none, club_scan_timed_out := false }, [])
  | SatClass.capture =>
      ({ last_state := some LMLast.shot, club_scan_started_at := none,
         club_scan_timed_out := false },
        (if s.last_state = some LMLast.pause then [LMAct.resume] else []) ++
          [LMAct.capture])
  | SatClass.clubWait =>
      if s.club_scan_timed_out then
        if sat < shot_threshold ∨ obs_high_threshold < sat then
          lmClubWaitBody
            { s with club_scan_timed_out := false, club_scan_started_at := none }
            now
        else if s.last_state ≠ some LMLast.pause then
          ({ s with last_state := some LMLast.pause }, [LMAct.pause])
        else (s, [])
      else lmClubWaitBody s now
  | SatClass.paused =>
      if s.last_state ≠ some LMLast.pause then
        ({ last_state := some LMLast.pause, club_scan_started_at := none,
           club_scan_timed_out := false },
          [LMAct.pause])
      else
        ({ s with club_scan_started_at := none, club_scan_timed_out := false }, [])

example :
    lmStep ⟨some LMLast.shot, some 0, false⟩ 10 3 5 20 =
      (⟨some LMLast.hotkey, some 0, false⟩,
        [LMAct.settleWait, LMAct.hotkeyTrigger, LMAct.clubCaptureError]) := by
  norm_num [lmStep, classify, lmClubWaitBody, lmHotkeyAndClubCapture,
    clubCaptureAttempt, doScreenshotParams, clubScanTimeout]
  all_goals decide

example :
    lmStep ⟨some LMLast.hotkey, some 0, false⟩ 10 7 5 20 =
      (⟨some LMLast.pause, some 0, true⟩, [LMAct.pause]) := by
  norm_num [lmStep, classify, lmClubWaitBody, lmHotkeyAndClubCapture,
    clubCaptureAttempt, doScreenshotParams, clubScanTimeout]

example :
    lmStep ⟨some LMLast.pause, some 2, true⟩ 0 100 5 20 =
      (⟨some LMLast.pause, none, false⟩, []) := by
  norm_num [lmStep, classify]

/-! ## Relay-server grayscale debounce
(`WorkerDeviceLaunchMonitorRelayServer.run`) -/

/-- Grayscale-detection state of the relay `run` loop: `last_state`
(`None` / `True` = grayscale / `False` = color), `consecutive_grayscale`,
`consecutive_color`. -/
structure RelayState where
  last_state : Option Bool
  consecutive_grayscale : Nat
  consecutive_color : Nat
  deriving DecidableEq

/-- Actions of the grayscale branch of the relay loop: `pause()`, the 1.6 s
settle sleep, the OBS replay trigger, and `resume()`. -/
inductive RelayAct where
  | pauseProcessing
  | settleWait
  | replayTrigger
  | resumeProcessing
  deriving DecidableEq

/-- `self.required_consecutive_frames = 2`. -/
def requiredConsecutiveFrames : Nat := 2

/-- `self.saturation_threshold = 13`. -/
def relaySaturationThreshold : ℚ := 13

/-- `WorkerDeviceLaunchMonitorRelayServer.is_grayscale_image`, reduced to
its decision on the mean saturation. -/
def is_grayscale (mean_saturation : ℚ) : Bool :=
  mean_saturation < relaySaturationThreshold

/-- The grayscale-detection part (A) of one iteration of the relay `run`
loop: update the consecutive counters, then act on a stable flip. -/
def relayStep (s : RelayState) (currently_grayscale : Bool) :
    RelayState × List RelayAct :=
  let cg := if currently_grayscale then s.consecutive_grayscale + 1 else 0
  let cc := if currently_grayscale then 0 else s.consecutive_color + 1
  let stable_grayscale := requiredConsecutiveFrames ≤ cg
  let stable_color := requiredConsecutiveFrames ≤ cc
  if stable_grayscale ∧ s.last_state ≠ some true then
    (⟨some true, cg, cc⟩,
      [RelayAct.pauseProcessing, RelayAct.settleWait, RelayAct.replayTrigger,
        RelayAct.resumeProcessing])
  else if stable_color ∧ s.last_state ≠ some false then
    (⟨some false, cg, cc⟩, [])
  else
    (⟨s.last_state, cg, cc⟩, [])

example :
    relayStep ⟨some false, 0, 2⟩ true = (⟨some false, 1, 0⟩, []) := by decide

example :
    relayStep ⟨some false, 1, 0⟩ true =
      (⟨some true, 2, 0⟩,
        [RelayAct.pauseProcessing, RelayAct.settleWait, RelayAct.replayTrigger,
          RelayAct.resumeProcessing]) := by decide

/-- A concrete pending shot (ball data ready, club metrics pending) used by
concrete-input theorems. -/
def pendingCachedBall : BallData :=
  { oid := 2, good_shot := true, delayed_metrics_update := false,
    delayed_metrics_pending := true, contains_ball_data := true,
    contains_club_data := true, club_data_only := false,
    angle_of_attack := 0, club_path := 0, ball_speed := 150, total_spin := 3000 }

/-- A concrete delayed club-metrics update used by concrete-input theorems. -/
def delayedUpdateBall : BallData :=
  { oid := 3, good_shot := true, delayed_metrics_update := true,
    delayed_metrics_pending := false, contains_ball_data := false,
    contains_club_data := false, club_data_only := false,
    angle_of_attack := -3, club_path := 2, ball_speed := 0, total_spin := 0 }

/-! ## Claims -/

/-- C1, counterexample: a good shot arriving 5.5 seconds after the previous
one — a gap that exceeds 5 seconds — is nevertheless counted as a ghost and
ignored (only `same_shot` is emitted, the counter becomes 1), because
`__handle_good_shot` compares `timedelta.seconds` (the floored whole-second
gap, here 5) against 5.  The claim says such a shot is accepted and
forwarded with the counter reset to 0. -/
theorem c1_ghost_filter_counterexample :
    5 * 1000000 < 5500000 ∧
    handle_good_shot ⟨0, 0, none, none⟩ 5500000 sampleBall =
      (⟨1, 5500000, none, none⟩, [Emit.same_shot], sampleBall) := by decide

/-- C1 (amended): the ghost filter branches on the whole-second component
of the elapsed `timedelta` (`timedelta.seconds`, i.e. the floored gap in
seconds modulo one day), not on the exact gap.  If that component exceeds 5
the counter resets to 0 and the shot is accepted and forwarded; otherwise
the counter increments and the shot is ignored as a ghost (`same_shot`
emitted, nothing forwarded), and whenever the incremented counter exceeds 2
a `too_many_ghost_shots` warning is additionally emitted and the counter
resets to 0.  The last-shot timestamp is updated on every call. -/
theorem c1_ghost_filter (s : WorkerState) (now : Nat) (b : BallData)
    (hmono : s.time_of_last_shot ≤ now) :
    (handle_good_shot s now b).1.time_of_last_shot = now ∧
    (5 < timedeltaSeconds (now - s.time_of_last_shot) →
      (handle_good_shot s now b).1.shot_count = 0 ∧
      (handle_good_shot s now b).2.1 = [Emit.shot (acceptedShot b)]) ∧
    (timedeltaSeconds (now - s.time_of_last_shot) ≤ 5 →
      (∀ x, Emit.shot x ∉ (handle_good_shot s now b).2.1) ∧
      Emit.same_shot ∈ (handle_good_shot s now b).2.1 ∧
      (2 < s.shot_count + 1 →
        Emit.too_many_ghost_shots ∈ (handle_good_shot s now b).2.1 ∧
        (handle_good_shot s now b).1.shot_count = 0) ∧
      (s.shot_count + 1 ≤ 2 →
        (handle_good_shot s now b).2.1 = [Emit.same_shot] ∧
        (handle_good_shot s now b).1.shot_count = s.shot_count + 1)) := by
  simp only [handle_good_shot]
  split_ifs with h1 h2 h3 <;> simp_all <;> omega

/-- C1, witness: at a 6-second gap the whole-second component is 6 > 5 and
the shot is accepted and forwarded. -/
theorem c1_ghost_filter_witness :
    (0 : Nat) ≤ 6000000 ∧ 5 < timedeltaSeconds (6000000 - 0) ∧
    (handle_good_shot ⟨0, 0, none, none⟩ 6000000 sampleBall).2.1 =
      [Emit.shot (acceptedShot sampleBall)] :=
  ⟨by decide, by decide,
    ((c1_ghost_filter ⟨0, 0, none, none⟩ 6000000 sampleBall (by decide)).2.1
      (by decide)).2⟩

/-- C10: the last-shot timestamp is initialized to the construction time, so
the first good new shot after construction is ghosted — only `same_shot` is
emitted and nothing is forwarded — whenever it is processed within 5 seconds
of construction, even though no earlier shot was ever accepted. -/
theorem c10_first_shot_ghosted (t now : Nat) (b : BallData)
    (h1 : t ≤ now) (h2 : now - t ≤ 5000000)
    (hg : b.good_shot = true) (hd : b.delayed_metrics_update = false) :
    (do_screenshot (initWorkerState t) now ⟨true, true, b⟩).2 = [Emit.same_shot] ∧
    (do_screenshot (initWorkerState t) now ⟨true, true, b⟩).1.shot_count = 1 := by
  have hsecs : timedeltaSeconds (now - t) ≤ 5 := by
    have hdiv : (now - t) / 1000000 ≤ 5000000 / 1000000 :=
      Nat.div_le_div_right h2
    norm_num at hdiv
    exact le_trans (Nat.mod_le _ _) hdiv
  simp only [do_screenshot, flush_pending_shot_if_timed_out, initWorkerState,
    handle_good_shot, hg, hd]
  simp [hsecs]
  cases hb : b.delayed_metrics_pending <;> simp [hb]

/-- C10, witness: a good first shot 3 seconds after construction is ghosted. -/
theorem c10_first_shot_ghosted_witness :
    (0 : Nat) ≤ 3000000 ∧ (3000000 - 0 : Nat) ≤ 5000000 ∧
    sampleBall.good_shot = true ∧ sampleBall.delayed_metrics_update = false ∧
    (do_screenshot (initWorkerState 0) 3000000 ⟨true, true, sampleBall⟩).2 =
      [Emit.same_shot] :=
  ⟨by decide, by decide, by decide, by decide,
    (c10_first_shot_ghosted 0 3000000 sampleBall (by decide) (by decide)
      (by decide) (by decide)).1⟩

/-- C2: the delayed-metrics correlator.  A delayed update with no pending
shot is dropped with the state unchanged; otherwise the angle-of-attack and
club-path fields of the update are merged into the cached pending shot, the
pending cache is cleared, and exactly one club-only update is forwarded — a
copy carrying the pending shot's ball metrics plus the merged delayed
fields, with the ball-data flag cleared and the club-data flag set.
`do_screenshot` routes a good new reading with `delayed_metrics_update` to
this handler (after the pending-timeout flush, which does not fire below
the 3-second timeout). -/
theorem c2_delayed_metrics_correlator (s : WorkerState) (b : BallData) :
    (s.pending_shot = none → process_delayed_metrics_update s b = (s, [])) ∧
    (∀ p, s.pending_shot = some p →
      process_delayed_metrics_update s b =
        ({ s with pending_shot := none, pending_shot_started := none },
          [Emit.shot (clubOnlyUpdate p b)]) ∧
      (clubOnlyUpdate p b).angle_of_attack = b.angle_of_attack ∧
      (clubOnlyUpdate p b).club_path = b.club_path ∧
      (clubOnlyUpdate p b).ball_speed = p.ball_speed ∧
      (clubOnlyUpdate p b).total_spin = p.total_spin ∧
      (clubOnlyUpdate p b).contains_ball_data = false ∧
      (clubOnlyUpdate p b).contains_club_data = true ∧
      (clubOnlyUpdate p b).club_data_only = true) ∧
    (∀ p t0 now, s.pending_shot = some p → s.pending_shot_started = some t0 →
      now - t0 < delayedMetricsTimeout →
      b.good_shot = true → b.delayed_metrics_update = true →
      do_screenshot s now ⟨true, true, b⟩ = process_delayed_metrics_update s b) := by
  refine ⟨?_, ?_, ?_⟩
  · intro hp
    simp [process_delayed_metrics_update, hp]
  · intro p hp
    simp [process_delayed_metrics_update, hp, clubOnlyUpdate]
  · intro p t0 now hp ht hlt hg hdu
    simp [do_screenshot, flush_pending_shot_if_timed_out, hp, ht,
      Nat.not_le.mpr hlt, hg, hdu]

/-- C2, witness: a pending shot A merged with delayed update B yields one
club-only forward with A's ball metrics and B's club fields, and an empty
pending cache. -/
theorem c2_delayed_metrics_correlator_witness :
    (⟨0, 0, some pendingCachedBall, some 1000000⟩ : WorkerState).pending_shot =
      some pendingCachedBall ∧
    process_delayed_metrics_update
        ⟨0, 0, some pendingCachedBall, some 1000000⟩ delayedUpdateBall =
      (⟨0, 0, none, none⟩,
        [Emit.shot (clubOnlyUpdate pendingCachedBall delayedUpdateBall)]) :=
  ⟨rfl,
    ((c2_delayed_metrics_correlator
        ⟨0, 0, some pendingCachedBall, some 1000000⟩ delayedUpdateBall).2.1
      pendingCachedBall rfl).1⟩

/-- C3, counterexample: with `shotThreshold = 5` and `obsThreshold = 10`, a
saturation of exactly 5 is classified CLUB_WAIT, not CAPTURE — the CAPTURE
guard `mean_saturation < shot_threshold` is strict. -/
theorem c3_threshold_boundary_counterexample :
    classify 5 5 10 = SatClass.clubWait ∧ SatClass.clubWait ≠ SatClass.capture := by
  constructor
  · norm_num [classify]
  · decide

/-- C3 (amended): the CLUB_WAIT band is inclusive on both edges: a
saturation equal to exactly `shotThreshold` is classified CLUB_WAIT (the
CAPTURE band is strict, `saturation < shotThreshold`), and a saturation
equal to exactly `obsThreshold` is classified CLUB_WAIT, provided
`shotThreshold ≤ obsThreshold`. -/
theorem c3_threshold_boundaries (shot_threshold obs_high_threshold : ℚ)
    (h : shot_threshold ≤ obs_high_threshold) :
    classify shot_threshold shot_threshold obs_high_threshold = SatClass.clubWait ∧
    classify obs_high_threshold shot_threshold obs_high_threshold =
      SatClass.clubWait := by
  constructor <;> simp [classify, h]

/-- C3, witness: boundaries at shotThreshold = 5, obsThreshold = 10. -/
theorem c3_threshold_boundaries_witness :
    (5 : ℚ) ≤ 10 ∧ classify 5 5 10 = SatClass.clubWait ∧
    classify 10 5 10 = SatClass.clubWait :=
  ⟨by norm_num, (c3_threshold_boundaries 5 10 (by norm_num)).1,
    (c3_threshold_boundaries 5 10 (by norm_num)).2⟩

/-- The pending-shot flush touches only the pending cache, never the ghost
filter's counter or timestamp. -/
theorem flush_preserves_ghost_fields (s : WorkerState) (now : Nat) :
    (flush_pending_shot_if_timed_out s now).shot_count = s.shot_count ∧
    (flush_pending_shot_if_timed_out s now).time_of_last_shot =
      s.time_of_last_shot := by
  unfold flush_pending_shot_if_timed_out
  cases s.pending_shot <;> cases s.pending_shot_started <;> simp <;> split_ifs <;>
    simp

/-- C4, counterexample: a good new reading with `delayed_metrics_pending`
(and no delayed update), arriving 10 seconds after the last shot, is both
forwarded downstream as a full shot (with the ball-data flag set) and cached
as the new pending shot — the claim says the only action is CACHE_PENDING
and the reading is not forwarded as a full shot. -/
theorem c4_single_action_counterexample :
    (do_screenshot ⟨0, 0, none, none⟩ 10000000 ⟨true, true, pendingCachedBall⟩).2 =
      [Emit.shot (acceptedShot pendingCachedBall)] ∧
    (acceptedShot pendingCachedBall).contains_ball_data = true ∧
    (acceptedShot pendingCachedBall).club_data_only = false ∧
    (do_screenshot ⟨0, 0, none, none⟩ 10000000
        ⟨true, true, pendingCachedBall⟩).1.pending_shot =
      some (acceptedShot pendingCachedBall) := by decide

/-- C4 (amended): a good new reading with `pendingDelayedMetrics` true (and
`hasDelayedUpdate` false) first passes through the ghost filter — when the
filter accepts it (whole-second gap above 5) it IS forwarded downstream as a
full shot, and when it is ghosted only `same_shot` is emitted — and in every
case it is then stored as the new pending shot with the current timestamp,
replacing and discarding any prior pending shot without forwarding the
prior one. -/
theorem c4_cache_pending (s : WorkerState) (now : Nat) (b : BallData)
    (hg : b.good_shot = true) (hdu : b.delayed_metrics_update = false)
    (hdp : b.delayed_metrics_pending = true) :
    (do_screenshot s now ⟨true, true, b⟩).1.pending_shot_started = some now ∧
    (5 < timedeltaSeconds (now - s.time_of_last_shot) →
      (do_screenshot s now ⟨true, true, b⟩).2 = [Emit.shot (acceptedShot b)] ∧
      (do_screenshot s now ⟨true, true, b⟩).1.pending_shot =
        some (acceptedShot b)) ∧
    (timedeltaSeconds (now - s.time_of_last_shot) ≤ 5 →
      (∀ x, Emit.shot x ∉ (do_screenshot s now ⟨true, true, b⟩).2) ∧
      (do_screenshot s now ⟨true, true, b⟩).1.pending_shot = some b) := by
  obtain ⟨hcount, htime⟩ := flush_preserves_ghost_fields s now
  simp only [do_screenshot, hg, hdu, handle_good_shot, htime]
  simp only [Bool.false_eq_true, if_false, if_true, ite_true, ite_false]
  split_ifs with h1 h2 h3 <;>
    simp_all [acceptedShot, hdp]

/-- C4, witness: at a 10-second gap the reading is forwarded as a full shot
and cached as pending. -/
theorem c4_cache_pending_witness :
    pendingCachedBall.good_shot = true ∧
    pendingCachedBall.delayed_metrics_update = false ∧
    pendingCachedBall.delayed_metrics_pending = true ∧
    5 < timedeltaSeconds (10000000 - (0 : Nat)) ∧
    (do_screenshot ⟨0, 0, none, none⟩ 10000000
        ⟨true, true, pendingCachedBall⟩).1.pending_shot_started = some 10000000 ∧
    (do_screenshot ⟨0, 0, none, none⟩ 10000000 ⟨true, true, pendingCachedBall⟩).2 =
      [Emit.shot (acceptedShot pendingCachedBall)] :=
  ⟨by decide, by decide, by decide, by decide,
    (c4_cache_pending ⟨0, 0, none, none⟩ 10000000 pendingCachedBall
      (by decide) (by decide) (by decide)).1,
    ((c4_cache_pending ⟨0, 0, none, none⟩ 10000000 pendingCachedBall
      (by decide) (by decide) (by decide)).2.1 (by decide)).1⟩

/-- C5: if a pending shot exists and at least 3 seconds (the
`delayed_metrics_timeout`) have elapsed since it was cached, the flush
performed at the top of `do_screenshot` clears it; a good accepted shot
without delayed flags arriving in the same call is then forwarded as a full
shot — the reading itself with only its tagging flags changed, merged with
nothing — and the pending cache stays empty. -/
theorem c5_pending_timeout (s : WorkerState) (now t0 : Nat) (p b : BallData)
    (hp : s.pending_shot = some p) (ht : s.pending_shot_started = some t0)
    (helapsed : delayedMetricsTimeout ≤ now - t0)
    (hg : b.good_shot = true) (hdu : b.delayed_metrics_update = false)
    (hdp : b.delayed_metrics_pending = false)
    (hgap : 5 < timedeltaSeconds (now - s.time_of_last_shot)) :
    (flush_pending_shot_if_timed_out s now).pending_shot = none ∧
    (do_screenshot s now ⟨true, true, b⟩).2 = [Emit.shot (acceptedShot b)] ∧
    (do_screenshot s now ⟨true, true, b⟩).1.pending_shot = none := by
  have hflush : flush_pending_shot_if_timed_out s now =
      { s with pending_shot := none, pending_shot_started := none } := by
    simp [flush_pending_shot_if_timed_out, hp, ht, helapsed]
  refine ⟨by simp [hflush], ?_, ?_⟩ <;>
    simp [do_screenshot, hflush, hg, hdu, handle_good_shot, hgap.not_le,
      acceptedShot, hdp]

/-- C5, witness: pending shot cached 4 seconds ago (beyond the 3 s timeout)
is flushed, and a fresh good shot 10 seconds after the last one is forwarded
as a full shot with the pending cache empty. -/
theorem c5_pending_timeout_witness :
    (⟨0, 0, some pendingCachedBall, some 6000000⟩ : WorkerState).pending_shot =
      some pendingCachedBall ∧
    delayedMetricsTimeout ≤ (10000000 - 6000000 : Nat) ∧
    5 < timedeltaSeconds (10000000 - (0 : Nat)) ∧
    (do_screenshot ⟨0, 0, some pendingCachedBall, some 6000000⟩ 10000000
        ⟨true, true, sampleBall⟩).2 = [Emit.shot (acceptedShot sampleBall)] ∧
    (do_screenshot ⟨0, 0, some pendingCachedBall, some 6000000⟩ 10000000
        ⟨true, true, sampleBall⟩).1.pending_shot = none :=
  ⟨rfl, by decide, by decide,
    (c5_pending_timeout ⟨0, 0, some pendingCachedBall, some 6000000⟩ 10000000
      6000000 pendingCachedBall sampleBall rfl rfl (by decide) (by decide)
      (by decide) (by decide) (by decide)).2.1,
    (c5_pending_timeout ⟨0, 0, some pendingCachedBall, some 6000000⟩ 10000000
      6000000 pendingCachedBall sampleBall rfl rfl (by decide) (by decide)
      (by decide) (by decide) (by decide)).2.2⟩

/-- C6: the CLUB_WAIT branch attempts the partial club-metrics capture with
`self.do_screenshot(self.screenshot, self.device, False, partial_only=True)`,
but `WorkerScreenshotBase.do_screenshot(self, screenshot, settings,
rois_setup)` — the method resolved for the launch monitor, which defines no
override — accepts no `partial_only` keyword, so the call raises
`TypeError` on every tick; the surrounding `try/except` logs it and no
partial capture ever happens.  On the first CLUB_WAIT tick the 2.5 s settle
wait and the one-shot hotkey trigger do run before the failing capture
attempt, and on later ticks only the failing attempt runs. -/
theorem c6_club_capture_type_error :
    "partial_only" ∉ doScreenshotParams ∧
    clubCaptureAttempt = LMAct.clubCaptureError ∧
    lmStep ⟨some LMLast.shot, some 0, false⟩ 10 3 5 20 =
      (⟨some LMLast.hotkey, some 0, false⟩,
        [LMAct.settleWait, LMAct.hotkeyTrigger, LMAct.clubCaptureError]) ∧
    lmStep ⟨some LMLast.hotkey, some 0, false⟩ 10 3 5 20 =
      (⟨some LMLast.hotkey, some 0, false⟩, [LMAct.clubCaptureError]) := by
  refine ⟨by decide, by decide, ?_, ?_⟩ <;>
    norm_num [lmStep, classify, lmClubWaitBody, lmHotkeyAndClubCapture,
      clubCaptureAttempt, doScreenshotParams, clubScanTimeout] <;>
    all_goals decide

/-- C7: while the saturation is in the `[shotThreshold, obsThreshold]` band:
once the club-scan timer has been running for more than 6 seconds the
machine sets the timed-out flag and emits exactly one pause; while timed out
and still in the band the flag stays set and no capture attempt of any kind
is made (the tick emits nothing, or a single pause on the transition of
`last_state`); and when the saturation drops below `shotThreshold` (to a
nonzero value) the timed-out flag is cleared, capture is attempted again,
and `resume` is emitted if the machine was paused. -/
theorem c7_club_scan_timeout (s : LMState)
    (sat now shot_threshold obs_high_threshold : ℚ) :
    (shot_threshold ≤ sat → sat ≤ obs_high_threshold →
      ((s.club_scan_timed_out = false →
        ∀ t0, s.club_scan_started_at = some t0 → clubScanTimeout < now - t0 →
          (lmStep s sat now shot_threshold obs_high_threshold).1.club_scan_timed_out
              = true ∧
          (lmStep s sat now shot_threshold obs_high_threshold).2 =
            [LMAct.pause]) ∧
      (s.club_scan_timed_out = true →
        (lmStep s sat now shot_threshold obs_high_threshold).1.club_scan_timed_out
            = true ∧
        ((lmStep s sat now shot_threshold obs_high_threshold).2 = [] ∨
          (lmStep s sat now shot_threshold obs_high_threshold).2 =
            [LMAct.pause])))) ∧
    (0 < sat → sat < shot_threshold →
      (lmStep s sat now shot_threshold obs_high_threshold).1.club_scan_timed_out
          = false ∧
      LMAct.capture ∈ (lmStep s sat now shot_threshold obs_high_threshold).2 ∧
      (s.last_state = some LMLast.pause →
        LMAct.resume ∈ (lmStep s sat now shot_threshold obs_high_threshold).2)) := by
  constructor
  · intro h1 h2
    have hcl : classify sat shot_threshold obs_high_threshold =
        SatClass.clubWait := by
      simp [classify, not_lt.mpr h1, h1, h2]
    constructor
    · intro htimed t0 hstart hlt
      simp [lmStep, hcl, htimed, lmClubWaitBody, hstart, hlt]
    · intro htimed
      simp only [lmStep, hcl, htimed, if_true]
      have hdead : ¬(sat < shot_threshold ∨ obs_high_threshold < sat) := by
        push_neg
        exact ⟨h1, h2⟩
      simp only [hdead, if_false, ite_false]
      by_cases hlast : s.last_state = some LMLast.pause <;>
        simp [hlast, htimed]
  · intro h0 hlt
    have hcl : classify sat shot_threshold obs_high_threshold =
        SatClass.capture := by
      simp [classify, hlt, h0.ne']
    refine ⟨by simp [lmStep, hcl], by simp [lmStep, hcl], ?_⟩
    intro hlast
    simp [lmStep, hcl, hlast]

/-- C7, witness: an in-band tick 7 seconds after the club-scan timer started
sets the timed-out flag and emits a pause; a later tick at nonzero
saturation below the shot threshold clears the flag, emits resume, and
captures. -/
theorem c7_club_scan_timeout_witness :
    (5 : ℚ) ≤ 10 ∧ (10 : ℚ) ≤ 20 ∧ clubScanTimeout < (7 : ℚ) - 0 ∧
    (lmStep ⟨some LMLast.hotkey, some 0, false⟩ 10 7 5 20).1.club_scan_timed_out
        = true ∧
    (lmStep ⟨some LMLast.hotkey, some 0, false⟩ 10 7 5 20).2 = [LMAct.pause] ∧
    (0 : ℚ) < 2 ∧ (2 : ℚ) < 5 ∧
    (lmStep ⟨some LMLast.pause, some 0, true⟩ 2 8 5 20).1.club_scan_timed_out
        = false ∧
    LMAct.capture ∈ (lmStep ⟨some LMLast.pause, some 0, true⟩ 2 8 5 20).2 ∧
    LMAct.resume ∈ (lmStep ⟨some LMLast.pause, some 0, true⟩ 2 8 5 20).2 :=
  ⟨by norm_num, by norm_num, by norm_num [clubScanTimeout],
    (((c7_club_scan_timeout ⟨some LMLast.hotkey, some 0, false⟩ 10 7 5 20).1
      (by norm_num) (by norm_num)).1 rfl 0 rfl (by norm_num [clubScanTimeout])).1,
    (((c7_club_scan_timeout ⟨some LMLast.hotkey, some 0, false⟩ 10 7 5 20).1
      (by norm_num) (by norm_num)).1 rfl 0 rfl (by norm_num [clubScanTimeout])).2,
    by norm_num, by norm_num,
    ((c7_club_scan_timeout ⟨some LMLast.pause, some 0, true⟩ 2 8 5 20).2
      (by norm_num) (by norm_num)).1,
    ((c7_club_scan_timeout ⟨some LMLast.pause, some 0, true⟩ 2 8 5 20).2
      (by norm_num) (by norm_num)).2.1,
    ((c7_club_scan_timeout ⟨some LMLast.pause, some 0, true⟩ 2 8 5 20).2
      (by norm_num) (by norm_num)).2.2 rfl⟩

/-- C8, counterexample: a zero-saturation sample arriving while the
club-scan timer is running and the timed-out flag is set does change the
state machine's state — the timer and flag are cleared (they are reset at
the top of the below-shot-threshold branch, before the zero check) — even
though no action is emitted.  The claim says no state of the state machine
changes. -/
theorem c8_zero_saturation_counterexample :
    lmStep ⟨some LMLast.pause, some 2, true⟩ 0 100 5 20 =
      (⟨some LMLast.pause, none, false⟩, []) ∧
    (⟨some LMLast.pause, none, false⟩ : LMState) ≠
      ⟨some LMLast.pause, some 2, true⟩ := by
  constructor
  · norm_num [lmStep, classify]
  · decide

/-- C8 (amended): a sample with saturation exactly 0 while the shot
threshold is positive is ignored in the sense that no capture is attempted,
no pause/resume is emitted, and `last_state` is unchanged — but the
club-scan timer and the timed-out flag are still cleared, exactly as for any
sample below the shot threshold, before the zero check short-circuits the
tick. -/
theorem c8_zero_saturation (s : LMState) (now shot_threshold obs_high_threshold : ℚ)
    (h : 0 < shot_threshold) :
    lmStep s 0 now shot_threshold obs_high_threshold =
      ({ s with club_scan_started_at := none, club_scan_timed_out := false },
        []) := by
  simp [lmStep, classify, h]

/-- C8, witness: at shot threshold 5, a zero sample leaves `last_state`
alone, emits nothing, and clears the club-scan timer and flag. -/
theorem c8_zero_saturation_witness :
    (0 : ℚ) < 5 ∧
    lmStep ⟨some LMLast.hotkey, some 2, true⟩ 0 100 5 20 =
      (⟨some LMLast.hotkey, none, false⟩, []) :=
  ⟨by norm_num, c8_zero_saturation ⟨some LMLast.hotkey, some 2, true⟩ 100 5 20
    (by norm_num)⟩

/-- C9: the relay grayscale debounce.  The grayscale flip (pause, settle
wait, replay trigger, resume) fires only on a grayscale sample making at
least 2 consecutive grayscale samples with the remembered state not already
grayscale; the state flips to color only on a color sample making at least 2
consecutive color samples; each counter resets whenever the other
increments; a grayscale sample arriving after a color sample (counter 0)
emits nothing; and two consecutive grayscale samples from a color state do
fire the flip. -/
theorem c9_relay_debounce (s : RelayState) (g : Bool) :
    (RelayAct.pauseProcessing ∈ (relayStep s g).2 →
      g = true ∧ 1 ≤ s.consecutive_grayscale ∧ s.last_state ≠ some true) ∧
    ((relayStep s g).1.last_state = some false ∧ s.last_state ≠ some false →
      g = false ∧ 1 ≤ s.consecutive_color) ∧
    (g = true → (relayStep s g).1.consecutive_color = 0 ∧
      (relayStep s g).1.consecutive_grayscale = s.consecutive_grayscale + 1) ∧
    (g = false → (relayStep s g).1.consecutive_grayscale = 0 ∧
      (relayStep s g).1.consecutive_color = s.consecutive_color + 1) ∧
    (s.consecutive_grayscale = 0 → g = true → (relayStep s g).2 = []) ∧
    (1 ≤ s.consecutive_grayscale → s.last_state ≠ some true → g = true →
      (relayStep s g).2 =
        [RelayAct.pauseProcessing, RelayAct.settleWait, RelayAct.replayTrigger,
          RelayAct.resumeProcessing]) := by
  cases g <;>
    simp only [relayStep, requiredConsecutiveFrames] <;>
    split_ifs <;> simp_all <;> omega

/-- C9, witness: a single grayscale sample after colors emits nothing; a
second consecutive grayscale sample fires the full pause/trigger/resume
sequence. -/
theorem c9_relay_debounce_witness :
    (relayStep ⟨some false, 0, 2⟩ true).2 = [] ∧
    (relayStep ⟨some false, 1, 0⟩ true).2 =
      [RelayAct.pauseProcessing, RelayAct.settleWait, RelayAct.replayTrigger,
        RelayAct.resumeProcessing] :=
  ⟨(c9_relay_debounce ⟨some false, 0, 2⟩ true).2.2.2.2.1 rfl rfl,
    (c9_relay_debounce ⟨some false, 1, 0⟩ true).2.2.2.2.2 (by decide) (by decide)
      rfl⟩

end MLMGsPro
